import Mathlib

set_option linter.unusedVariables false
set_option maxRecDepth 100000

/-!
Shallow embedding of the AI-client module of the bingo-card generator
(`src/index.tsx`).  The source file concatenates three TypeScript modules:
a React entry point (not modelled: pure presentation), a Gemini service
implementation with API-key validation and Markdown-fence cleaning
(embedded below as namespace `ServiceV1`), and a near-duplicate service
implementation without key validation or fence cleaning (namespace
`ServiceV2`).

Modelling conventions:
* JavaScript runtime values flowing out of `JSON.parse` are modelled by the
  inductive `JValue`; `JSON.parse` itself is embedded as the executable
  fuel-based parser `parseJSON` implementing the JSON grammar (objects,
  arrays, strings with escapes, numbers, literals, the four JSON
  whitespace characters, duplicate keys resolved last-wins as in JS).
* Thrown JS errors are `JSError` values carrying their `message` string;
  a fallible computation is `Except JSError α`.  A `try`/`catch` block is
  a `match` on the result of the embedded `try` body.
* The remote `ai.models.generateContent` call is an oracle parameter of
  type `RemoteResult`: it either fails with an error or returns a
  `response` whose `text` field is an `Option String` (`undefined` is
  `none`).  The request payload (prompt text, inline image parts) does not
  influence the oracle's answer, so prompt construction is not observable
  and is not re-stated here; the data-URL decoding helper `parseDataUrl`,
  which the spec constrains directly, is embedded in full.
* `JSON.parse`'s `SyntaxError` message is modelled as the fixed string
  `parseErrorJV` (engine-specific message formats are outside the model);
  what matters downstream is only whether a message contains `"API Key"`.
* Numbers are kept as their source lexeme (`JValue.num raw`); no claim
  computes with numeric values, only their JS truthiness is needed.
-/

namespace BingoGen

/-- A JavaScript value produced by `JSON.parse`. -/
inductive JValue where
  | null : JValue
  | bool : Bool → JValue
  | num : String → JValue
  | str : String → JValue
  | arr : List JValue → JValue
  | obj : List (String × JValue) → JValue

/-- A thrown JavaScript `Error`, reduced to its `message`. -/
structure JSError where
  message : String

/-- `SubjectContext` from `types.ts`: `{ subject: string, isMath: boolean }`. -/
structure SubjectContext where
  subject : String
  isMath : Bool

/-- `BingoItem` from `types.ts`.  The TS declaration types `problem` and
`answer` as `string`, but the untyped mapping `item.problem || "Fout"` can
store any truthy JSON value at runtime, so the embedding keeps them as
`JValue`; in every case the claims exercise they are `JValue.str` values. -/
structure BingoItem where
  id : String
  problem : JValue
  answer : JValue

/-- The `GoogleGenAI` client handle: it only retains the key it was
constructed with (`new GoogleGenAI({ apiKey: key })`). -/
structure GoogleGenAI where
  apiKey : Option String

/-- Result of the data-URL decoding helper. -/
structure ParsedDataUrl where
  mimeType : String
  data : String

/-- The `mode` flag of `generateBingoItems`. -/
inductive GenMode where
  | similar : GenMode
  | exact : GenMode

/-- Oracle for one `ai.models.generateContent` call: the call either
throws, or resolves with a `response` whose `text` is `Option String`. -/
inductive RemoteResult where
  | ok : Option String → RemoteResult
  | fail : JSError → RemoteResult

/-! ### Generic string helpers (JS `String.prototype` fragments) -/

/-- `pat` is a prefix of `cs` (character-list level). -/
def listStartsWith : List Char → List Char → Bool
  | [], _ => true
  | _ :: _, [] => false
  | p :: ps, c :: cs => p = c && listStartsWith ps cs

/-- `pat` occurs as a contiguous sublist of `cs`. -/
def listHasSub (pat : List Char) : List Char → Bool
  | [] => pat.isEmpty
  | c :: cs => listStartsWith pat (c :: cs) || listHasSub pat cs

/-- JS `s.includes(pat)`. -/
def strHasSub (s pat : String) : Bool :=
  listHasSub pat.toList s.toList

/-- JS `s.startsWith(pre)` (kept on character lists so that concrete
instances evaluate by `rfl`). -/
def strStarts (s pre : String) : Bool :=
  listStartsWith pre.toList s.toList

/-- JS `s.endsWith(suf)`. -/
def strEnds (s suf : String) : Bool :=
  listStartsWith suf.toList.reverse s.toList.reverse

/-- Drop the first `n` characters of `s`. -/
def strDropN (s : String) (n : Nat) : String :=
  String.mk (s.toList.drop n)

/-- Drop the last `n` characters of `s`. -/
def strDropRightN (s : String) (n : Nat) : String :=
  String.mk ((s.toList.reverse.drop n).reverse)

/-! ### JSON parsing (`JSON.parse`) -/

/-- The four whitespace characters of the JSON grammar. -/
def isJsonWs (c : Char) : Bool :=
  c = ' ' || c = '\t' || c = '\n' || c = '\r'

/-- ASCII decimal digit. -/
def isDigitC (c : Char) : Bool :=
  '0' ≤ c && c ≤ '9'

/-- Hexadecimal digit value, for `\uXXXX` escapes. -/
def hexVal (c : Char) : Option Nat :=
  if '0' ≤ c && c ≤ '9' then some (c.toNat - 48)
  else if 'a' ≤ c && c ≤ 'f' then some (c.toNat - 87)
  else if 'A' ≤ c && c ≤ 'F' then some (c.toNat - 55)
  else none

/-- Decode one JSON string escape (the characters after a backslash). -/
def decodeEscape : List Char → Option (Char × List Char)
  | [] => none
  | e :: rest =>
    if e = '"' then some ('"', rest)
    else if e = '\\' then some ('\\', rest)
    else if e = '/' then some ('/', rest)
    else if e = 'b' then some (Char.ofNat 8, rest)
    else if e = 'f' then some (Char.ofNat 12, rest)
    else if e = 'n' then some ('\n', rest)
    else if e = 'r' then some ('\r', rest)
    else if e = 't' then some ('\t', rest)
    else if e = 'u' then
      match rest with
      | h1 :: h2 :: h3 :: h4 :: r =>
        match hexVal h1, hexVal h2, hexVal h3, hexVal h4 with
        | some a, some b, some c, some d =>
          some (Char.ofNat (4096 * a + 256 * b + 16 * c + d), r)
        | _, _, _, _ => none
      | _ => none
    else none

/-- Parse the body of a JSON string (the opening quote already consumed),
returning the decoded characters and the remaining input. -/
def parseStrChars : Nat → List Char → Option (List Char × List Char)
  | 0, _ => none
  | _, [] => none
  | fuel + 1, c :: rest =>
    if c = '"' then some ([], rest)
    else if c = '\\' then
      match decodeEscape rest with
      | some (d, r2) =>
        match parseStrChars fuel r2 with
        | some (s, r3) => some (d :: s, r3)
        | none => none
      | none => none
    else if c.toNat < 32 then none
    else
      match parseStrChars fuel rest with
      | some (s, r3) => some (c :: s, r3)
      | none => none

/-- Parse a JSON number, returning its lexeme and the remaining input. -/
def parseNumber (cs : List Char) : Option (List Char × List Char) :=
  let signAndRest : List Char × List Char :=
    match cs with
    | c :: r => if c = '-' then ([c], r) else ([], cs)
    | [] => ([], cs)
  let sign := signAndRest.1
  let cs1 := signAndRest.2
  match cs1 with
  | [] => none
  | d :: r =>
    if ¬ (isDigitC d = true) then none
    else
      let intAndRest : List Char × List Char :=
        if d = '0' then ([d], r)
        else (d :: r.takeWhile isDigitC, r.dropWhile isDigitC)
      let ip := intAndRest.1
      let rest1 := intAndRest.2
      let fracAndRest : List Char × List Char :=
        match rest1 with
        | '.' :: r2 =>
          let ds := r2.takeWhile isDigitC
          if ds.isEmpty then ([], rest1)
          else ('.' :: ds, r2.dropWhile isDigitC)
        | _ => ([], rest1)
      let fp := fracAndRest.1
      let rest2 := fracAndRest.2
      let expAndRest : List Char × List Char :=
        match rest2 with
        | e :: r2 =>
          if e = 'e' || e = 'E' then
            match r2 with
            | s :: r3 =>
              if s = '+' || s = '-' then
                let ds := r3.takeWhile isDigitC
                if ds.isEmpty then ([], rest2)
                else (e :: s :: ds, r3.dropWhile isDigitC)
              else
                let ds := r2.takeWhile isDigitC
                if ds.isEmpty then ([], rest2)
                else (e :: ds, r2.dropWhile isDigitC)
            | [] => ([], rest2)
          else ([], rest2)
        | [] => ([], rest2)
      some (sign ++ ip ++ fp ++ expAndRest.1, expAndRest.2)

/-- Insert a key/value pair into an object under construction, JS
semantics for duplicate keys: the original position is kept, the later
value wins. -/
def insKV : List (String × JValue) → String × JValue → List (String × JValue)
  | [], kv => [kv]
  | (k, v) :: rest, kv => if k = kv.1 then (k, kv.2) :: rest else (k, v) :: insKV rest kv

/-- Opening brace character (written via its code point). -/
def lbraceC : Char := Char.ofNat 123

/-- Closing brace character (written via its code point). -/
def rbraceC : Char := Char.ofNat 125

mutual

/-- Parse one JSON value (leading whitespace allowed), fuel-based. -/
def parseVal : Nat → List Char → Option (JValue × List Char)
  | 0, _ => none
  | fuel + 1, cs0 =>
    let cs := cs0.dropWhile isJsonWs
    match cs with
    | [] => none
    | c :: rest =>
      if c = lbraceC then
        let r := rest.dropWhile isJsonWs
        match r with
        | d :: r2 =>
          if d = rbraceC then some (.obj [], r2)
          else
            match parseMembers fuel r with
            | some (kvs, r3) => some (.obj (kvs.foldl insKV []), r3)
            | none => none
        | [] => none
      else if c = '[' then
        let r := rest.dropWhile isJsonWs
        match r with
        | d :: r2 =>
          if d = ']' then some (.arr [], r2)
          else
            match parseElems fuel r with
            | some (vs, r3) => some (.arr vs, r3)
            | none => none
        | [] => none
      else if c = '"' then
        match parseStrChars (rest.length + 1) rest with
        | some (s, r2) => some (.str (String.mk s), r2)
        | none => none
      else if listStartsWith "true".toList cs then some (.bool true, cs.drop 4)
      else if listStartsWith "false".toList cs then some (.bool false, cs.drop 5)
      else if listStartsWith "null".toList cs then some (.null, cs.drop 4)
      else
        match parseNumber cs with
        | some (raw, r2) => some (.num (String.mk raw), r2)
        | none => none

/-- Parse the elements of a non-empty JSON array (after the `[`). -/
def parseElems : Nat → List Char → Option (List JValue × List Char)
  | 0, _ => none
  | fuel + 1, cs =>
    match parseVal fuel cs with
    | some (v, r) =>
      let r2 := r.dropWhile isJsonWs
      match r2 with
      | ',' :: r3 =>
        match parseElems fuel r3 with
        | some (vs, r4) => some (v :: vs, r4)
        | none => none
      | ']' :: r3 => some ([v], r3)
      | _ => none
    | none => none

/-- Parse the members of a non-empty JSON object (after the brace). -/
def parseMembers : Nat → List Char → Option (List (String × JValue) × List Char)
  | 0, _ => none
  | fuel + 1, cs =>
    let cs1 := cs.dropWhile isJsonWs
    match cs1 with
    | '"' :: r =>
      match parseStrChars (r.length + 1) r with
      | some (k, r2) =>
        let r3 := r2.dropWhile isJsonWs
        match r3 with
        | ':' :: r4 =>
          match parseVal fuel r4 with
          | some (v, r5) =>
            let r6 := r5.dropWhile isJsonWs
            match r6 with
            | ',' :: r7 =>
              match parseMembers fuel r7 with
              | some (kvs, r8) => some ((String.mk k, v) :: kvs, r8)
              | none => none
            | d :: r7 =>
              if d = rbraceC then some ([(String.mk k, v)], r7) else none
            | [] => none
          | none => none
        | _ => none
      | none => none
    | _ => none

end

/-- `JSON.parse`: parse the whole string as a single JSON value, allowing
surrounding whitespace, rejecting trailing input. -/
def parseJSON (s : String) : Option JValue :=
  let cs := s.toList
  match parseVal (2 * cs.length + 4) cs with
  | some (v, rest) => if (rest.dropWhile isJsonWs).isEmpty then some v else none
  | none => none

/-! ### JS value semantics -/

/-- Whether the mantissa of a JSON number lexeme is nonzero (`0`, `0.0`,
`-0`, `0e9` are all the JS number zero). -/
def numNonzero (raw : String) : Bool :=
  (raw.toList.takeWhile (fun c => ¬ (c = 'e' || c = 'E'))).any
    (fun c => '1' ≤ c && c ≤ '9')

/-- JS truthiness of a JSON-derived value: `null`, `false`, zero and the
empty string are falsy; arrays and objects are always truthy. -/
def jsTruthy : JValue → Bool
  | .null => false
  | .bool b => b
  | .num raw => numNonzero raw
  | .str s => ¬ (s == "")
  | .arr _ => true
  | .obj _ => true

/-- Look a field up in a (duplicate-free) parsed object. -/
def lookupField : List (String × JValue) → String → Option JValue
  | [], _ => none
  | (k, v) :: rest, f => if k = f then some v else lookupField rest f

/-- JS member access `v.f` on a JSON-derived value: throws a `TypeError`
on `null`, yields `undefined` (`none`) on non-objects and absent fields. -/
def jsMember : JValue → String → Except JSError (Option JValue)
  | .null, f => .error ⟨"Cannot read properties of null (reading " ++ f ++ ")"⟩
  | .obj kvs, f => .ok (lookupField kvs f)
  | _, _ => .ok none

/-- The expression `item.f || "Fout"` applied to an already-read member:
keep a truthy value, otherwise substitute the sentinel `"Fout"`. -/
def fieldOrFout : Option JValue → JValue
  | some v => if jsTruthy v then v else .str "Fout"
  | none => .str "Fout"

/-! ### `cleanJSON` (Markdown fence stripping, first service only) -/

/-- The character class of the JS regex `\s` / `String.prototype.trim`,
restricted to the whitespace characters that can realistically occur
(ASCII whitespace, NBSP, BOM). -/
def jsWsChar (c : Char) : Bool :=
  c = ' ' || c = '\t' || c = '\n' || c = '\r' || c = Char.ofNat 11 ||
    c = Char.ofNat 12 || c = Char.ofNat 160 || c = Char.ofNat 0xfeff

/-- Drop leading JS whitespace. -/
def strDropWhileWs (s : String) : String :=
  String.mk (s.toList.dropWhile jsWsChar)

/-- Drop trailing JS whitespace. -/
def strDropRightWs (s : String) : String :=
  String.mk ((s.toList.reverse.dropWhile jsWsChar).reverse)

/-- JS `String.prototype.trim`. -/
def jsTrim (s : String) : String :=
  strDropRightWs (strDropWhileWs s)

/-- `cleanJSON` from the first service implementation:
`text.replace(/^```json\s*/, '').replace(/^```\s*/, '').replace(/\s*```$/, '').trim()`
guarded by `if (!text) return ""`.  Each anchored regex replacement is a
prefix/suffix strip. -/
def cleanJSON (text : String) : String :=
  if text = "" then ""
  else
    let s1 := if strStarts text "```json" then strDropWhileWs (strDropN text 7) else text
    let s2 := if strStarts s1 "```" then strDropWhileWs (strDropN s1 3) else s1
    let s3 := if strEnds s2 "```" then strDropRightWs (strDropRightN s2 3) else s2
    jsTrim s3

/-! ### `parseDataUrl` (identical in both service implementations) -/

/-- JS regex line terminators, which `.` never matches. -/
def isLineTerm (c : Char) : Bool :=
  c = '\n' || c = '\r' || c = Char.ofNat 0x2028 || c = Char.ofNat 0x2029

/-- JS regex `\w`. -/
def isWordChar (c : Char) : Bool :=
  ('a' ≤ c && c ≤ 'z') || ('A' ≤ c && c ≤ 'Z') || ('0' ≤ c && c ≤ '9') || c = '_'

/-- All decompositions `cs = pre ++ ";base64," ++ post`, in order of
increasing `pre` (accumulator holds the reversed prefix scanned so far). -/
def base64Splits (acc : List Char) : List Char → List (List Char × List Char)
  | [] => []
  | c :: rest =>
    (if listStartsWith ";base64,".toList (c :: rest) then
      [(acc.reverse, (c :: rest).drop 8)]
    else []) ++ base64Splits (c :: acc) rest

/-- The match of `/^data:(.+);base64,(.+)$/` against `s`: both groups must
be non-empty and free of line terminators, and greediness of the first
`(.+)` selects the decomposition with the longest prefix. -/
def dataUrlMatch (s : String) : Option (String × String) :=
  if strStarts s "data:" then
    let rest := (strDropN s 5).toList
    if rest.any isLineTerm then none
    else
      match ((base64Splits [] rest).filter
          (fun pr => ¬ pr.1.isEmpty && ¬ pr.2.isEmpty)).getLast? with
      | some (pre, post) => some (String.mk pre, String.mk post)
      | none => none
  else none

/-- The fallback `dataUrl.replace(/^data:image\/\w+;base64,/, '')`. -/
def stripImageB64 (s : String) : String :=
  if strStarts s "data:image/" then
    let rest := (strDropN s 11).toList
    let w := rest.takeWhile isWordChar
    let r2 := rest.drop w.length
    if ¬ w.isEmpty && listStartsWith ";base64,".toList r2 then
      String.mk (r2.drop 8)
    else s
  else s

/-- `parseDataUrl` from `src/index.tsx` (the function is duplicated
verbatim in both service implementations). -/
def parseDataUrl (dataUrl : String) : ParsedDataUrl :=
  match dataUrlMatch dataUrl with
  | some (m, d) => ⟨m, d⟩
  | none => ⟨"image/jpeg", stripImageB64 dataUrl⟩

/-! ### Shared service pieces -/

/-- The modelled `SyntaxError` raised by a failing `JSON.parse` (the
engine-specific message text is irrelevant downstream except for not
containing `"API Key"`). -/
def parseErrorJV : JSError := ⟨"Unexpected token in JSON"⟩

/-- The `ConfigurationError` thrown by `getAIClient`. -/
def configKeyError : JSError :=
  ⟨"API Key ontbreekt of is ongeldig. Controleer Vercel instellingen."⟩

/-- The string-based error discrimination `error.message.includes("API Key")`
used by the first service's catch blocks; it is exactly how the code tells
configuration errors apart from content errors. -/
def isKeyError (e : JSError) : Bool :=
  strHasSub e.message "API Key"

/-- The key-validity test of `getAIClient`:
`if (!key || key.includes("YOUR_API_KEY") || key === "undefined")`.
`process.env.API_KEY` is an `Option String` (`none` = absent/`undefined`). -/
def keyInvalid : Option String → Bool
  | none => true
  | some k => k == "" || strHasSub k "YOUR_API_KEY" || k == "undefined"

/-- `getAIClient` from the first service implementation. -/
def getAIClient (key : Option String) : Except JSError GoogleGenAI :=
  if keyInvalid key then .error configKeyError else .ok ⟨key⟩

/-- The constant fallback `{ subject: "Algemeen", isMath: false }` returned
by both `detectSubject` catch blocks, as the JS object it is. -/
def fallbackSubject : JValue :=
  .obj [("subject", .str "Algemeen"), ("isMath", .bool false)]

/-- One element of the `itemsArray.map((item, index) => ({...}))` callback:
evaluates `item.problem` then `item.answer` (each can throw on `null`),
repairing falsy fields with the sentinel `"Fout"`. -/
def mkBingoItem (index : Nat) (item : JValue) : Except JSError BingoItem :=
  match jsMember item "problem" with
  | .error e => .error e
  | .ok p =>
    match jsMember item "answer" with
    | .error e => .error e
    | .ok a => .ok ⟨"item-" ++ toString index, fieldOrFout p, fieldOrFout a⟩

/-- The `Array.prototype.map` loop over the items, carrying the index;
aborts at the first throwing element, exactly as the JS map does. -/
def mapItemsFrom (start : Nat) : List JValue → Except JSError (List BingoItem)
  | [] => .ok []
  | v :: vs =>
    match mkBingoItem start v with
    | .error e => .error e
    | .ok bi =>
      match mapItemsFrom (start + 1) vs with
      | .error e => .error e
      | .ok rest => .ok (bi :: rest)

/-- The tail of both `generateBingoItems` try blocks after `JSON.parse`:
`const itemsArray = data.items || []; return itemsArray.map(...)`.
The two source copies of this code are character-identical. -/
def itemsOfData (data : JValue) : Except JSError (List BingoItem) :=
  match jsMember data "items" with
  | .error e => .error e
  | .ok itemsVal =>
    let itemsArray : JValue :=
      match itemsVal with
      | some v => if jsTruthy v then v else .arr []
      | none => .arr []
    match itemsArray with
    | .arr l => mapItemsFrom 0 l
    | _ => .error ⟨"itemsArray.map is not a function"⟩

/-! ### First service implementation: key validation + fence cleaning -/

namespace ServiceV1

/-- Try block of `detectSubject`: remote call, fence cleaning, emptiness
check, `JSON.parse` (the result is returned under an unchecked cast, so
the returned value is whatever `JSON.parse` produced). -/
def detectSubjectTry (remote : RemoteResult) : Except JSError JValue :=
  match remote with
  | .fail e => .error e
  | .ok text =>
    let cleanText := cleanJSON (text.getD "")
    if cleanText = "" then .error ⟨"Geen antwoord van AI (Leeg)"⟩
    else
      match parseJSON cleanText with
      | some v => .ok v
      | none => .error parseErrorJV

/-- `detectSubject` (first implementation): `getAIClient` runs before the
try block, the catch re-throws errors whose message contains `"API Key"`
and otherwise returns the constant fallback. -/
def detectSubject (key : Option String) (remote : RemoteResult)
    (topic : String) (imageBase64 : Option String) : Except JSError JValue :=
  match getAIClient key with
  | .error e => .error e
  | .ok _ =>
    match detectSubjectTry remote with
    | .ok v => .ok v
    | .error e => if isKeyError e then .error e else .ok fallbackSubject

/-- Try block of `generateBingoItems` (first implementation). -/
def generateTry (remote : RemoteResult) : Except JSError (List BingoItem) :=
  match remote with
  | .fail e => .error e
  | .ok text =>
    let cleanText := cleanJSON (text.getD "")
    if cleanText = "" then .error ⟨"Geen tekst ontvangen van AI"⟩
    else
      match parseJSON cleanText with
      | none => .error parseErrorJV
      | some data => itemsOfData data

/-- `generateBingoItems` (first implementation): key errors propagate
verbatim, every other failure is wrapped as
`Kon geen items genereren: <message>`. -/
def generateBingoItems (key : Option String) (remote : RemoteResult)
    (context : SubjectContext) (topicInput : String) (count : Nat)
    (imageBase64 : Option String) (mode : GenMode) :
    Except JSError (List BingoItem) :=
  match getAIClient key with
  | .error e => .error e
  | .ok _ =>
    match generateTry remote with
    | .ok items => .ok items
    | .error e =>
      if isKeyError e then .error e
      else .error ⟨"Kon geen items genereren: " ++ e.message⟩

end ServiceV1

/-! ### Second service implementation: no validation, no fence cleaning -/

namespace ServiceV2

/-- Try block of the second `detectSubject`: `response.text` is used raw
(no `cleanJSON`), the truthiness test rejects `undefined` and `""`. -/
def detectSubjectTry (remote : RemoteResult) : Except JSError JValue :=
  match remote with
  | .fail e => .error e
  | .ok text =>
    match text with
    | some t =>
      if t = "" then .error ⟨"Empty response from AI"⟩
      else
        match parseJSON t with
        | some v => .ok v
        | none => .error parseErrorJV
    | none => .error ⟨"Empty response from AI"⟩

/-- `detectSubject` (second implementation): the catch swallows every
error and returns the constant fallback. -/
def detectSubject (remote : RemoteResult) (topic : String)
    (imageBase64 : Option String) : Except JSError JValue :=
  match detectSubjectTry remote with
  | .ok v => .ok v
  | .error _ => .ok fallbackSubject

/-- Try block of the second `generateBingoItems` (no `cleanJSON`). -/
def generateTry (remote : RemoteResult) : Except JSError (List BingoItem) :=
  match remote with
  | .fail e => .error e
  | .ok text =>
    let t := text.getD ""
    if t = "" then .error ⟨"No text response"⟩
    else
      match parseJSON t with
      | none => .error parseErrorJV
      | some data => itemsOfData data

/-- `generateBingoItems` (second implementation): the catch replaces every
failure by the fixed message `Kon geen items genereren. Probeer het opnieuw.`. -/
def generateBingoItems (remote : RemoteResult) (context : SubjectContext)
    (topicInput : String) (count : Nat) (imageBase64 : Option String)
    (mode : GenMode) : Except JSError (List BingoItem) :=
  match generateTry remote with
  | .ok items => .ok items
  | .error _ => .error ⟨"Kon geen items genereren. Probeer het opnieuw."⟩

end ServiceV2

/-! ### Helper lemmas -/

theorem parseJSON_empty : parseJSON "" = none := rfl

theorem getAIClient_valid (key : Option String) (h : keyInvalid key = false) :
    getAIClient key = .ok ⟨key⟩ := by
  simp [getAIClient, h]

theorem mkBingoItem_obj (i : Nat) (kvs : List (String × JValue)) :
    mkBingoItem i (.obj kvs) =
      .ok ⟨"item-" ++ toString i, fieldOrFout (lookupField kvs "problem"),
        fieldOrFout (lookupField kvs "answer")⟩ := rfl

theorem mkBingoItem_pa (i : Nat) (p a : String) :
    mkBingoItem i (.obj [("problem", .str p), ("answer", .str a)]) =
      .ok ⟨"item-" ++ toString i, fieldOrFout (some (.str p)),
        fieldOrFout (some (.str a))⟩ := rfl

theorem itemsOfData_items (l : List JValue) :
    itemsOfData (.obj [("items", .arr l)]) = mapItemsFrom 0 l := by
  simp [itemsOfData, jsMember, lookupField, jsTruthy]

theorem detectSubject_v1_valid (key : Option String) (remote : RemoteResult)
    (topic : String) (img : Option String) (hk : keyInvalid key = false) :
    ServiceV1.detectSubject key remote topic img =
      match ServiceV1.detectSubjectTry remote with
      | .ok v => .ok v
      | .error e => if isKeyError e then .error e else .ok fallbackSubject := by
  simp [ServiceV1.detectSubject, getAIClient, hk]

theorem generateBingoItems_v1_parse (key : Option String) (t : String)
    (data : JValue) (ctx : SubjectContext) (topic : String) (count : Nat)
    (img : Option String) (mode : GenMode)
    (hk : keyInvalid key = false)
    (hp : parseJSON (cleanJSON t) = some data) :
    ServiceV1.generateBingoItems key (.ok (some t)) ctx topic count img mode =
      match itemsOfData data with
      | .ok items => .ok items
      | .error e =>
        if isKeyError e then .error e
        else .error ⟨"Kon geen items genereren: " ++ e.message⟩ := by
  have hne : ¬ (cleanJSON t = "") := by
    intro h
    rw [h, parseJSON_empty] at hp
    exact Option.noConfusion hp
  simp [ServiceV1.generateBingoItems, ServiceV1.generateTry, getAIClient, hk, hne, hp]

theorem mapItemsFrom_objs :
    ∀ (l : List JValue) (s : Nat),
      (∀ v ∈ l, ∃ kv, v = JValue.obj kv) →
      ∃ r, mapItemsFrom s l = .ok r ∧ r.length = l.length ∧
        ∀ i kvs, l.get? i = some (.obj kvs) →
          r.get? i = some ⟨"item-" ++ toString (s + i),
            fieldOrFout (lookupField kvs "problem"),
            fieldOrFout (lookupField kvs "answer")⟩ := by
  intro l
  induction l with
  | nil =>
    intro s _
    exact ⟨[], rfl, rfl, by intro i kvs hi; simp at hi⟩
  | cons v vs ih =>
    intro s h
    obtain ⟨kv, hv⟩ := h v (List.mem_cons_self v vs)
    obtain ⟨r, hr, hlen, hget⟩ := ih (s + 1) (fun w hw => h w (List.mem_cons_of_mem v hw))
    subst hv
    refine ⟨⟨"item-" ++ toString s, fieldOrFout (lookupField kv "problem"),
      fieldOrFout (lookupField kv "answer")⟩ :: r, ?_, ?_, ?_⟩
    · simp [mapItemsFrom, mkBingoItem_obj, hr]
    · simp [hlen]
    · intro i kvs hi
      cases i with
      | zero =>
        simp at hi
        simp [hi]
      | succ i =>
        have hh := hget i kvs (by simpa using hi)
        have e : s + 1 + i = s + (i + 1) := by omega
        rw [e] at hh
        simpa using hh

/-! ### C1 -/

/-- C1 counterexample: the key `"xYOUR_API_KEYx"` is non-empty, differs
from the placeholder value `"YOUR_API_KEY"` and from the literal
`"undefined"`, so the claim as stated promises successful construction,
yet `getAIClient` rejects it with the `ConfigurationError`: the source
tests substring containment (`key.includes("YOUR_API_KEY")`), not
equality with the placeholder. -/
theorem getAIClient_placeholder_superstring_fails :
    "xYOUR_API_KEYx" ≠ "" ∧ "xYOUR_API_KEYx" ≠ "YOUR_API_KEY" ∧
    "xYOUR_API_KEYx" ≠ "undefined" ∧
    getAIClient (some "xYOUR_API_KEYx") = .error configKeyError :=
  ⟨by decide, by decide, by decide, rfl⟩

/-- C1 (amended): `getAIClient` fails with the `ConfigurationError` for a
missing key and for every key value that is empty, contains the
placeholder substring `"YOUR_API_KEY"`, or is the literal string
`"undefined"`; for every other non-empty key value it succeeds, returning
a client bound to that key. -/
theorem getAIClient_validation_characterization :
    getAIClient none = .error configKeyError ∧
    ∀ k : String,
      ((k = "" ∨ strHasSub k "YOUR_API_KEY" = true ∨ k = "undefined") →
        getAIClient (some k) = .error configKeyError) ∧
      (k ≠ "" → strHasSub k "YOUR_API_KEY" = false → k ≠ "undefined" →
        getAIClient (some k) = .ok ⟨some k⟩) := by
  refine ⟨rfl, fun k => ⟨fun h => ?_, fun h1 h2 h3 => ?_⟩⟩
  · rcases h with h | h | h <;> simp [getAIClient, keyInvalid, h]
  · simp [getAIClient, keyInvalid, h1, h2, h3]

/-- C1 witness: the characterization applied to an ordinary key value. -/
theorem getAIClient_validation_characterization_witness :
    getAIClient (some "echte-sleutel-123") = .ok ⟨some "echte-sleutel-123"⟩ :=
  (getAIClient_validation_characterization.2 "echte-sleutel-123").2
    (by decide) (by decide) (by decide)

/-! ### C2 -/

/-- C2 counterexample: with a valid key, the non-empty, parsable remote
reply `{"items":[]}` makes `generateBingoItems` return the empty list as
an ordinary success, contradicting "never returns an empty list as a
silent success". -/
theorem generateBingoItems_empty_items_silent_success :
    ServiceV1.generateBingoItems (some "geldige-sleutel")
      (.ok (some "\x7b\"items\":[]\x7d"))
      ⟨"Wiskunde", true⟩ "breuken" 5 none .similar = .ok [] := rfl

/-- C2 (amended): for every empty remote reply (text absent, empty, or
reduced to nothing by fence cleaning) and for every unparsable reply,
`generateBingoItems` fails with the wrapped `GenerationError`
`Kon geen items genereren: ...`; however, a parsable reply whose `items`
array is empty (or absent) is returned as `.ok []` without an error. -/
theorem generateBingoItems_error_policy_amended :
    (∀ (key : Option String) (ctx : SubjectContext) (topic : String)
      (count : Nat) (img : Option String) (mode : GenMode) (text : Option String),
      keyInvalid key = false →
      cleanJSON (Option.getD text "") = "" →
      ServiceV1.generateBingoItems key (.ok text) ctx topic count img mode =
        .error ⟨"Kon geen items genereren: Geen tekst ontvangen van AI"⟩) ∧
    (∀ (key : Option String) (ctx : SubjectContext) (topic : String)
      (count : Nat) (img : Option String) (mode : GenMode) (t : String),
      keyInvalid key = false →
      cleanJSON t ≠ "" → parseJSON (cleanJSON t) = none →
      ServiceV1.generateBingoItems key (.ok (some t)) ctx topic count img mode =
        .error ⟨"Kon geen items genereren: " ++ parseErrorJV.message⟩) ∧
    (∀ (key : Option String) (ctx : SubjectContext) (topic : String)
      (count : Nat) (img : Option String) (mode : GenMode),
      keyInvalid key = false →
      ServiceV1.generateBingoItems key (.ok (some "\x7b\"items\":[]\x7d"))
        ctx topic count img mode = .ok []) := by
  refine ⟨?_, ?_, ?_⟩
  · intro key ctx topic count img mode text hk hempty
    have hke : isKeyError ⟨"Geen tekst ontvangen van AI"⟩ = false := by decide
    simp [ServiceV1.generateBingoItems, ServiceV1.generateTry, getAIClient, hk,
      hempty, hke]
  · intro key ctx topic count img mode t hk hne hp
    have hke : isKeyError parseErrorJV = false := by decide
    simp [ServiceV1.generateBingoItems, ServiceV1.generateTry, getAIClient, hk,
      hne, hp, hke]
  · intro key ctx topic count img mode hk
    rw [generateBingoItems_v1_parse key _ (.obj [("items", .arr [])]) ctx topic
      count img mode hk (by rfl)]
    rfl

/-- C2 witness: the empty-reply branch at a concrete empty reply. -/
theorem generateBingoItems_error_policy_amended_witness :
    ServiceV1.generateBingoItems (some "sleutel-abc") (.ok (some ""))
      ⟨"Wiskunde", true⟩ "tafels" 5 none .similar =
      .error ⟨"Kon geen items genereren: Geen tekst ontvangen van AI"⟩ :=
  generateBingoItems_error_policy_amended.1 (some "sleutel-abc")
    ⟨"Wiskunde", true⟩ "tafels" 5 none .similar (some "") (by decide) (by decide)

/-! ### C3 -/

/-- C3 (confirmed): `detectSubject("", null)` never lets a parse error
escape to the caller — every error it can return is an API-key
(configuration) error in the sense of the code's own discrimination — and
for every simulated remote failure that is not an API-key error it
returns exactly the fallback `{subject: "Algemeen", isMath: false}`
(under a valid key; an invalid key is itself a configuration error). -/
theorem detectSubject_soft_fail :
    (∀ (key : Option String) (remote : RemoteResult) (e : JSError),
      ServiceV1.detectSubject key remote "" none = .error e →
      isKeyError e = true) ∧
    (∀ (key : Option String) (e : JSError),
      keyInvalid key = false → isKeyError e = false →
      ServiceV1.detectSubject key (.fail e) "" none = .ok fallbackSubject) := by
  constructor
  · intro key remote e h
    by_cases hk : keyInvalid key = true
    · simp [ServiceV1.detectSubject, getAIClient, hk] at h
      rw [← h]
      decide
    · have hk' : keyInvalid key = false := by
        revert hk
        cases keyInvalid key <;> simp
      rw [detectSubject_v1_valid key remote "" none hk'] at h
      cases htry : ServiceV1.detectSubjectTry remote with
      | ok v => rw [htry] at h; exact Except.noConfusion h
      | error e' =>
        rw [htry] at h
        by_cases hke : isKeyError e' = true
        · simp [hke] at h
          rw [← h]
          exact hke
        · simp [hke] at h
  · intro key e hk hke
    rw [detectSubject_v1_valid key (.fail e) "" none hk]
    simp [ServiceV1.detectSubjectTry, hke]

/-- C3 witness: a concrete non-configuration remote failure is replaced by
the constant fallback. -/
theorem detectSubject_soft_fail_witness :
    ServiceV1.detectSubject (some "sleutel-ok") (.fail ⟨"netwerkfout"⟩) "" none =
      .ok fallbackSubject :=
  detectSubject_soft_fail.2 (some "sleutel-ok") ⟨"netwerkfout"⟩
    (by decide) (by decide)

/-! ### C4 -/

/-- C4 counterexample: with a valid key, an empty remote reply does not
make any error propagate — `detectSubject` swallows it and returns the
constant fallback `{subject: "Algemeen", isMath: false}` (also showing
the fallback subject is `"Algemeen"`, not `"General"`), contradicting
"if the remote response is empty or malformed ... the configuration error
propagates to the caller". -/
theorem detectSubject_empty_reply_swallowed :
    ServiceV1.detectSubject (some "geldige-sleutel-1") (.ok (some "")) "" none =
      .ok fallbackSubject := rfl

/-- C4 (amended): in `detectSubject`, only configuration (API-key) errors
propagate: an invalid key fails with the `ConfigurationError`, and a
remote failure whose message contains "API Key" is re-thrown; an empty or
malformed (unparsable) response — like any other content failure — is
swallowed and replaced with the constant fallback
`{subject: "Algemeen", isMath: false}`. -/
theorem detectSubject_error_policy_amended :
    (∀ (key : Option String) (remote : RemoteResult) (topic : String)
      (img : Option String), keyInvalid key = true →
      ServiceV1.detectSubject key remote topic img = .error configKeyError) ∧
    (∀ (key : Option String) (topic : String) (img : Option String) (e : JSError),
      keyInvalid key = false → isKeyError e = true →
      ServiceV1.detectSubject key (.fail e) topic img = .error e) ∧
    (∀ (key : Option String) (topic : String) (img : Option String)
      (text : Option String),
      keyInvalid key = false → cleanJSON (Option.getD text "") = "" →
      ServiceV1.detectSubject key (.ok text) topic img = .ok fallbackSubject) ∧
    (∀ (key : Option String) (topic : String) (img : Option String) (t : String),
      keyInvalid key = false → parseJSON (cleanJSON t) = none →
      ServiceV1.detectSubject key (.ok (some t)) topic img = .ok fallbackSubject) := by
  refine ⟨?_, ?_, ?_, ?_⟩
  · intro key remote topic img hk
    simp [ServiceV1.detectSubject, getAIClient, hk]
  · intro key topic img e hk hke
    rw [detectSubject_v1_valid key (.fail e) topic img hk]
    simp [ServiceV1.detectSubjectTry, hke]
  · intro key topic img text hk hempty
    have hke : isKeyError ⟨"Geen antwoord van AI (Leeg)"⟩ = false := by decide
    rw [detectSubject_v1_valid key (.ok text) topic img hk]
    simp [ServiceV1.detectSubjectTry, hempty, hke]
  · intro key topic img t hk hp
    rw [detectSubject_v1_valid key (.ok (some t)) topic img hk]
    by_cases hc : cleanJSON t = ""
    · have hke : isKeyError ⟨"Geen antwoord van AI (Leeg)"⟩ = false := by decide
      simp [ServiceV1.detectSubjectTry, hc, hke]
    · have hke : isKeyError parseErrorJV = false := by decide
      simp [ServiceV1.detectSubjectTry, hc, hp, hke]

/-- C4 witness: a malformed (unparsable) reply under a valid key yields
the fallback, not a propagated error. -/
theorem detectSubject_error_policy_amended_witness :
    ServiceV1.detectSubject (some "sleutel-x") (.ok (some "geen json")) "" none =
      .ok fallbackSubject :=
  detectSubject_error_policy_amended.2.2.2 (some "sleutel-x") "" none
    "geen json" (by decide) (by rfl)

/-! ### C5 -/

/-- C5 (confirmed): with a valid key and a remote reply that parses to an
object whose `items` array holds exactly five well-formed
`{problem, answer}` objects, `generateBingoItems` called with `count = 5`
returns five `BingoItem`s carrying ids `item-0` through `item-4`, in the
order of the reply's array: the i-th output item is built from the i-th
input pair (its string fields kept verbatim when truthy, per
`fieldOrFout`). -/
theorem generateBingoItems_five_items_ids_order :
    ∀ (key : Option String) (t : String) (img : Option String) (mode : GenMode)
      (ctx : SubjectContext) (topic : String)
      (p0 a0 p1 a1 p2 a2 p3 a3 p4 a4 : String),
      keyInvalid key = false →
      parseJSON (cleanJSON t) = some (.obj [("items", .arr
        [.obj [("problem", .str p0), ("answer", .str a0)],
         .obj [("problem", .str p1), ("answer", .str a1)],
         .obj [("problem", .str p2), ("answer", .str a2)],
         .obj [("problem", .str p3), ("answer", .str a3)],
         .obj [("problem", .str p4), ("answer", .str a4)]])]) →
      ServiceV1.generateBingoItems key (.ok (some t)) ctx topic 5 img mode =
        .ok [⟨"item-0", fieldOrFout (some (.str p0)), fieldOrFout (some (.str a0))⟩,
             ⟨"item-1", fieldOrFout (some (.str p1)), fieldOrFout (some (.str a1))⟩,
             ⟨"item-2", fieldOrFout (some (.str p2)), fieldOrFout (some (.str a2))⟩,
             ⟨"item-3", fieldOrFout (some (.str p3)), fieldOrFout (some (.str a3))⟩,
             ⟨"item-4", fieldOrFout (some (.str p4)), fieldOrFout (some (.str a4))⟩] := by
  intro key t img mode ctx topic p0 a0 p1 a1 p2 a2 p3 a3 p4 a4 hk hp
  rw [generateBingoItems_v1_parse key t _ ctx topic 5 img mode hk hp,
    itemsOfData_items]
  simp [mapItemsFrom, mkBingoItem_pa]
  refine ⟨?_, ?_, ?_, ?_, ?_⟩ <;> decide

/-- C5 witness: five concrete arithmetic pairs come back in order with
the sequential ids. -/
theorem generateBingoItems_five_items_ids_order_witness :
    ServiceV1.generateBingoItems (some "geldige-sleutel-5")
      (.ok (some "\x7b\"items\":[\x7b\"problem\":\"1+1\",\"answer\":\"2\"\x7d,\x7b\"problem\":\"2+2\",\"answer\":\"4\"\x7d,\x7b\"problem\":\"3+3\",\"answer\":\"6\"\x7d,\x7b\"problem\":\"4+4\",\"answer\":\"8\"\x7d,\x7b\"problem\":\"5+5\",\"answer\":\"10\"\x7d]\x7d"))
      ⟨"Wiskunde", true⟩ "sommen" 5 none .similar =
      .ok [⟨"item-0", fieldOrFout (some (.str "1+1")), fieldOrFout (some (.str "2"))⟩,
           ⟨"item-1", fieldOrFout (some (.str "2+2")), fieldOrFout (some (.str "4"))⟩,
           ⟨"item-2", fieldOrFout (some (.str "3+3")), fieldOrFout (some (.str "6"))⟩,
           ⟨"item-3", fieldOrFout (some (.str "4+4")), fieldOrFout (some (.str "8"))⟩,
           ⟨"item-4", fieldOrFout (some (.str "5+5")), fieldOrFout (some (.str "10"))⟩] :=
  generateBingoItems_five_items_ids_order (some "geldige-sleutel-5") _ none
    .similar ⟨"Wiskunde", true⟩ "sommen"
    "1+1" "2" "2+2" "4" "3+3" "6" "4+4" "8" "5+5" "10" (by decide) (by rfl)

/-! ### C6 -/

/-- C6 (confirmed): when every element of the reply's `items` array is an
object, `generateBingoItems` succeeds with one `BingoItem` per input item
(the batch is preserved, nothing is thrown on account of a missing
field), and the item whose object lacks a `problem` or `answer` field
carries the sentinel string `"Fout"` in that field. -/
theorem generateBingoItems_missing_field_sentinel :
    ∀ (key : Option String) (t : String) (ctx : SubjectContext) (topic : String)
      (count : Nat) (img : Option String) (mode : GenMode)
      (l : List JValue) (i : Nat) (kvs : List (String × JValue)),
      keyInvalid key = false →
      parseJSON (cleanJSON t) = some (.obj [("items", .arr l)]) →
      (∀ v ∈ l, ∃ kv, v = JValue.obj kv) →
      l.get? i = some (.obj kvs) →
      ∃ items bi,
        ServiceV1.generateBingoItems key (.ok (some t)) ctx topic count img mode =
          .ok items ∧
        items.length = l.length ∧ items.get? i = some bi ∧
        bi.id = "item-" ++ toString i ∧
        (lookupField kvs "problem" = none → bi.problem = .str "Fout") ∧
        (lookupField kvs "answer" = none → bi.answer = .str "Fout") := by
  intro key t ctx topic count img mode l i kvs hk hp hobjs hi
  obtain ⟨r, hr, hlen, hget⟩ := mapItemsFrom_objs l 0 hobjs
  have hri := hget i kvs hi
  rw [Nat.zero_add] at hri
  refine ⟨r, ⟨"item-" ++ toString i, fieldOrFout (lookupField kvs "problem"),
    fieldOrFout (lookupField kvs "answer")⟩, ?_, hlen, hri, rfl,
    fun hnone => ?_, fun hnone => ?_⟩
  · rw [generateBingoItems_v1_parse key t _ ctx topic count img mode hk hp,
      itemsOfData_items, hr]
  · simp [hnone, fieldOrFout]
  · simp [hnone, fieldOrFout]

/-- C6 witness: a single item missing its `answer` field is repaired to
the sentinel and the batch survives. -/
theorem generateBingoItems_missing_field_sentinel_witness :
    ∃ items bi,
      ServiceV1.generateBingoItems (some "sleutel-6")
        (.ok (some "\x7b\"items\":[\x7b\"problem\":\"7x8\"\x7d]\x7d"))
        ⟨"Wiskunde", true⟩ "tafels" 1 none .similar = .ok items ∧
      items.length = [JValue.obj [("problem", JValue.str "7x8")]].length ∧
      items.get? 0 = some bi ∧
      bi.id = "item-" ++ toString 0 ∧
      (lookupField [("problem", JValue.str "7x8")] "problem" = none →
        bi.problem = .str "Fout") ∧
      (lookupField [("problem", JValue.str "7x8")] "answer" = none →
        bi.answer = .str "Fout") :=
  generateBingoItems_missing_field_sentinel (some "sleutel-6") _
    ⟨"Wiskunde", true⟩ "tafels" 1 none .similar
    [.obj [("problem", .str "7x8")]] 0 [("problem", .str "7x8")]
    (by decide) (by rfl)
    (by intro v hv; rw [List.mem_singleton] at hv; exact ⟨_, hv⟩) (by rfl)

/-! ### C7 -/

/-- C7 (confirmed): with a valid key, the well-formed remote reply
`{"subject":"Wiskunde","isMath":true}` — bare or wrapped in a
```` ```json ... ``` ```` Markdown fence — makes `detectSubject` return
exactly the parsed object `{subject: "Wiskunde", isMath: true}`. -/
theorem detectSubject_wellformed_fenced_unchanged :
    ∀ (key : Option String) (topic : String) (img : Option String),
      keyInvalid key = false →
      ServiceV1.detectSubject key
          (.ok (some "\x7b\"subject\":\"Wiskunde\",\"isMath\":true\x7d")) topic img =
        .ok (.obj [("subject", .str "Wiskunde"), ("isMath", .bool true)]) ∧
      ServiceV1.detectSubject key
          (.ok (some "```json\n\x7b\"subject\":\"Wiskunde\",\"isMath\":true\x7d\n```"))
          topic img =
        .ok (.obj [("subject", .str "Wiskunde"), ("isMath", .bool true)]) := by
  intro key topic img hk
  exact ⟨(detectSubject_v1_valid key _ topic img hk).trans rfl,
    (detectSubject_v1_valid key _ topic img hk).trans rfl⟩

/-- C7 witness: the fenced variant at a concrete valid key. -/
theorem detectSubject_wellformed_fenced_unchanged_witness :
    ServiceV1.detectSubject (some "sleutel-w")
        (.ok (some "```json\n\x7b\"subject\":\"Wiskunde\",\"isMath\":true\x7d\n```"))
        "" none =
      .ok (.obj [("subject", .str "Wiskunde"), ("isMath", .bool true)]) :=
  (detectSubject_wellformed_fenced_unchanged (some "sleutel-w") "" none
    (by decide)).2

/-! ### C8 -/

/-- C8 (confirmed): `parseDataUrl "data:image/png;base64,AAAA"` yields
`{mimeType: "image/png", data: "AAAA"}`; and for every input string on
which the `data:<mime>;base64,<payload>` pattern does not match, the
result carries the fallback mime type `"image/jpeg"` and, as payload, the
input with any recognizable `data:image/...;base64,` prefix stripped
(illustrated on a bare payload and on a data URL with empty payload). -/
theorem parseDataUrl_shape_and_fallback :
    parseDataUrl "data:image/png;base64,AAAA" = ⟨"image/png", "AAAA"⟩ ∧
    parseDataUrl "AAAA" = ⟨"image/jpeg", "AAAA"⟩ ∧
    parseDataUrl "data:image/png;base64," = ⟨"image/jpeg", ""⟩ ∧
    ∀ s, dataUrlMatch s = none →
      (parseDataUrl s).mimeType = "image/jpeg" ∧
      (parseDataUrl s).data = stripImageB64 s := by
  refine ⟨rfl, rfl, rfl, fun s h => ?_⟩
  rw [parseDataUrl, h]
  exact ⟨rfl, rfl⟩

/-- C8 witness: the fallback branch at a concrete non-matching string. -/
theorem parseDataUrl_shape_and_fallback_witness :
    (parseDataUrl "zomaar wat tekst").mimeType = "image/jpeg" ∧
    (parseDataUrl "zomaar wat tekst").data = stripImageB64 "zomaar wat tekst" :=
  parseDataUrl_shape_and_fallback.2.2.2 "zomaar wat tekst" rfl

/-! ### C9 -/

/-- C9 (confirmed): the two near-duplicate service implementations differ
only in error-handling strictness: with a valid key and a well-formed
non-empty remote reply (reply text that is exactly a parsable JSON value,
so fence cleaning leaves it unchanged), the two `detectSubject`
implementations return equal values, and whenever either
`generateBingoItems` implementation returns an item list without raising
an error, the other returns the identical list. -/
theorem services_agree_on_success :
    ∀ (key : Option String) (t topic topicInput : String) (img : Option String)
      (ctx : SubjectContext) (count : Nat) (mode : GenMode),
      keyInvalid key = false → t ≠ "" → cleanJSON t = t →
      (parseJSON t).isSome = true →
      (ServiceV1.detectSubject key (.ok (some t)) topic img =
        ServiceV2.detectSubject (.ok (some t)) topic img) ∧
      (∀ items,
        ServiceV1.generateBingoItems key (.ok (some t)) ctx topicInput count img mode =
          .ok items →
        ServiceV2.generateBingoItems (.ok (some t)) ctx topicInput count img mode =
          .ok items) ∧
      (∀ items,
        ServiceV2.generateBingoItems (.ok (some t)) ctx topicInput count img mode =
          .ok items →
        ServiceV1.generateBingoItems key (.ok (some t)) ctx topicInput count img mode =
          .ok items) := by
  intro key t topic topicInput img ctx count mode hk hne hclean hsome
  obtain ⟨v, hv⟩ := Option.isSome_iff_exists.mp hsome
  have htry1 : ServiceV1.detectSubjectTry (.ok (some t)) = .ok v := by
    simp [ServiceV1.detectSubjectTry, hclean, hne, hv]
  have htry2 : ServiceV2.detectSubjectTry (.ok (some t)) = .ok v := by
    simp [ServiceV2.detectSubjectTry, hne, hv]
  have hgen1 : ServiceV1.generateTry (.ok (some t)) = itemsOfData v := by
    simp [ServiceV1.generateTry, hclean, hne, hv]
  have hgen2 : ServiceV2.generateTry (.ok (some t)) = itemsOfData v := by
    simp [ServiceV2.generateTry, hne, hv]
  have hV1 : ServiceV1.generateBingoItems key (.ok (some t)) ctx topicInput count img mode =
      match itemsOfData v with
      | .ok items => .ok items
      | .error e =>
        if isKeyError e then .error e
        else .error ⟨"Kon geen items genereren: " ++ e.message⟩ :=
    generateBingoItems_v1_parse key t v ctx topicInput count img mode hk
      (by rw [hclean]; exact hv)
  have hV2 : ServiceV2.generateBingoItems (.ok (some t)) ctx topicInput count img mode =
      match itemsOfData v with
      | .ok items => .ok items
      | .error e => .error ⟨"Kon geen items genereren. Probeer het opnieuw."⟩ := by
    simp [ServiceV2.generateBingoItems, hgen2]
  refine ⟨?_, ?_, ?_⟩
  · rw [detectSubject_v1_valid key _ topic img hk, htry1,
      ServiceV2.detectSubject, htry2]
  · intro items h1
    rw [hV1] at h1
    rw [hV2]
    cases hio : itemsOfData v with
    | ok r =>
      rw [hio] at h1
      simpa using h1
    | error e =>
      rw [hio] at h1
      by_cases hke : isKeyError e = true <;> simp [hke] at h1
  · intro items h2
    rw [hV2] at h2
    rw [hV1]
    cases hio : itemsOfData v with
    | ok r =>
      rw [hio] at h2
      simpa using h2
    | error e =>
      rw [hio] at h2
      simp at h2

/-- C9 witness: both `detectSubject` implementations agree on a concrete
clean well-formed reply. -/
theorem services_agree_on_success_witness :
    ServiceV1.detectSubject (some "geldig")
        (.ok (some "\x7b\"subject\":\"Wiskunde\",\"isMath\":true\x7d")) "" none =
      ServiceV2.detectSubject
        (.ok (some "\x7b\"subject\":\"Wiskunde\",\"isMath\":true\x7d")) "" none :=
  (services_agree_on_success (some "geldig")
    "\x7b\"subject\":\"Wiskunde\",\"isMath\":true\x7d" "" "" none
    ⟨"Wiskunde", true⟩ 5 .similar (by decide) (by decide) (by decide)
    (by decide)).1

/-! ### C10 -/

/-- C10 (confirmed): the sentinel repair triggers on any falsy field
value, not only on absent fields: an item whose `problem` or `answer`
field is present but equal to the empty string `""` comes back with
`"Fout"` in that field. -/
theorem generateBingoItems_empty_string_field_sentinel :
    ∀ (key : Option String) (t : String) (ctx : SubjectContext) (topic : String)
      (count : Nat) (img : Option String) (mode : GenMode)
      (l : List JValue) (i : Nat) (kvs : List (String × JValue)),
      keyInvalid key = false →
      parseJSON (cleanJSON t) = some (.obj [("items", .arr l)]) →
      (∀ v ∈ l, ∃ kv, v = JValue.obj kv) →
      l.get? i = some (.obj kvs) →
      ∃ items bi,
        ServiceV1.generateBingoItems key (.ok (some t)) ctx topic count img mode =
          .ok items ∧
        items.get? i = some bi ∧
        (lookupField kvs "problem" = some (.str "") → bi.problem = .str "Fout") ∧
        (lookupField kvs "answer" = some (.str "") → bi.answer = .str "Fout") := by
  intro key t ctx topic count img mode l i kvs hk hp hobjs hi
  obtain ⟨r, hr, hlen, hget⟩ := mapItemsFrom_objs l 0 hobjs
  have hri := hget i kvs hi
  rw [Nat.zero_add] at hri
  refine ⟨r, ⟨"item-" ++ toString i, fieldOrFout (lookupField kvs "problem"),
    fieldOrFout (lookupField kvs "answer")⟩, ?_, hri,
    fun hstr => ?_, fun hstr => ?_⟩
  · rw [generateBingoItems_v1_parse key t _ ctx topic count img mode hk hp,
      itemsOfData_items, hr]
  · simp [hstr, fieldOrFout, jsTruthy]
  · simp [hstr, fieldOrFout, jsTruthy]

/-- C10 witness: a present-but-empty `problem` field is replaced by the
sentinel. -/
theorem generateBingoItems_empty_string_field_sentinel_witness :
    ∃ items bi,
      ServiceV1.generateBingoItems (some "sleutel-10")
        (.ok (some "\x7b\"items\":[\x7b\"problem\":\"\",\"answer\":\"x\"\x7d]\x7d"))
        ⟨"Taal", false⟩ "woorden" 1 none .similar = .ok items ∧
      items.get? 0 = some bi ∧
      (lookupField [("problem", JValue.str ""), ("answer", JValue.str "x")]
          "problem" = some (.str "") → bi.problem = .str "Fout") ∧
      (lookupField [("problem", JValue.str ""), ("answer", JValue.str "x")]
          "answer" = some (.str "") → bi.answer = .str "Fout") :=
  generateBingoItems_empty_string_field_sentinel (some "sleutel-10") _
    ⟨"Taal", false⟩ "woorden" 1 none .similar
    [.obj [("problem", .str ""), ("answer", .str "x")]] 0
    [("problem", .str ""), ("answer", .str "x")]
    (by decide) (by rfl)
    (by intro v hv; rw [List.mem_singleton] at hv; exact ⟨_, hv⟩) (by rfl)

end BingoGen
